import Mathlib

/-!
Verification of the partial-update SQL-fragment builder (`sqlForPartialUpdate`
in `helpers/sql.js`) and of its callers `User.update` (`models/user.js`) and
`Job.update` (`models/job.js`) from the jobly repository.

JavaScript objects are modelled as ordered association lists of own
properties: `Object.keys` is the list of first components, `Object.values`
the list of second components, in the same (insertion) order, matching the
single deterministic own-property enumeration order of the host language.
Heterogeneous JS scalar values are the closed sum `JsValue`.
-/

/-- The scalar values an update mapping can hold (string, number, boolean,
null), as allowed as bind parameters. -/
inductive JsValue where
  | str (s : String)
  | num (n : Int)
  | bool (b : Bool)
  | null
  deriving DecidableEq, Repr

/-- JavaScript truthiness of a `JsValue`, as tested by `if (data.password)`. -/
def JsValue.truthy : JsValue → Bool
  | .str s => !s.isEmpty
  | .num n => n != 0
  | .bool b => b
  | .null => false

/-- An update mapping (the `dataToUpdate` argument): ordered field/value pairs. -/
abbrev UpdateData := List (String × JsValue)

/-- A name translation table (the `jsToSql` argument): ordered pairs of
application-level field name and storage column name. -/
abbrev JsToSql := List (String × String)

/-- Errors raised by the modelled code (`BadRequestError`, `NotFoundError`
from `expressError.js`). -/
inductive JoblyError where
  | badRequest (msg : String)
  | notFound (msg : String)
  deriving DecidableEq, Repr

/-- The record returned by `sqlForPartialUpdate`. -/
structure SqlUpdateResult where
  setCols : String
  values : List JsValue
  deriving DecidableEq, Repr

/-- The JS expression `jsToSql[colName] || colName`: property lookup that
falls back to the key itself when the property is absent, and also when the
stored translation is a falsy string (the empty string). -/
def resolveCol (jsToSql : JsToSql) (colName : String) : String :=
  match List.lookup colName jsToSql with
  | some s => if s = "" then colName else s
  | none => colName

/-- The list built by
`keys.map((colName, idx) => \x7b"$\x7bjsToSql[colName] || colName\x7d"=$$\x7bidx + 1\x7d\x7d)`:
one segment per key, carrying the resolved quoted column name and the
1-based positional placeholder. -/
def colSegments (dataToUpdate : UpdateData) (jsToSql : JsToSql) : List String :=
  (dataToUpdate.map Prod.fst).enum.map fun p =>
    "\"" ++ resolveCol jsToSql p.2 ++ "\"=$" ++ toString (p.1 + 1)

/-- `sqlForPartialUpdate(dataToUpdate, jsToSql)` from `helpers/sql.js`:
throws `BadRequestError("No data")` when the mapping has no keys, otherwise
returns the comma-and-space-joined segments as `setCols` together with
`Object.values(dataToUpdate)`. -/
def sqlForPartialUpdate (dataToUpdate : UpdateData) (jsToSql : JsToSql) :
    Except JoblyError SqlUpdateResult :=
  let keys := dataToUpdate.map Prod.fst
  if keys.length = 0 then
    .error (.badRequest "No data")
  else
    .ok { setCols := String.intercalate ", " (colSegments dataToUpdate jsToSql),
          values := dataToUpdate.map Prod.snd }

/-- The translation table `User.update` passes to the builder. -/
def userJsToSql : JsToSql :=
  [("firstName", "first_name"), ("lastName", "last_name"), ("isAdmin", "is_admin")]

/-- A parameterized statement submitted to `db.query`: the statement text and
the ordered bound-parameter list. -/
structure QueryCall where
  querySql : String
  params : List JsValue
  deriving DecidableEq, Repr

/-- The effect of `if (data.password) data.password = await bcrypt.hash(...)`
in `User.update`: the caller-supplied mapping with the value of its (first)
truthy `password` entry overwritten by its hash, all other entries and the
key order untouched. `hash` abstracts `bcrypt.hash` at the fixed work
factor. -/
def overwritePassword (w : JsValue) (p : String × JsValue) :
    String × JsValue :=
  if p.1 = "password" then (p.1, w) else p

def hashPasswordInData (hash : JsValue → JsValue) (data : UpdateData) :
    UpdateData :=
  match List.lookup "password" data with
  | some v =>
    if v.truthy then data.map (overwritePassword (hash v))
    else data
  | none => data

/-- The statement and bound parameters `User.update(username, data)` builds
and submits (the SQL text's whitespace normalized to single spaces): the
builder's fragment spliced after `SET`, `WHERE username = $(values.length+1)`,
and the username appended after the builder's values. -/
def userUpdateQuery (hash : JsValue → JsValue) (username : String)
    (data : UpdateData) : Except JoblyError QueryCall :=
  match sqlForPartialUpdate (hashPasswordInData hash data) userJsToSql with
  | .error e => .error e
  | .ok r =>
    let usernameVarIdx := "$" ++ toString (r.values.length + 1)
    .ok { querySql := "UPDATE users SET " ++ r.setCols ++
            " WHERE username = " ++ usernameVarIdx ++
            " RETURNING username, first_name AS \"firstName\", last_name AS \"lastName\", email, is_admin AS \"isAdmin\"",
          params := r.values ++ [JsValue.str username] }

/-- The statement and bound parameters `Job.update(id, data)` builds and
submits (whitespace normalized): the builder's fragment (empty translation
table) spliced after `SET`, `WHERE id = $(values.length+1)`, and the id
appended after the builder's values. -/
def jobUpdateQuery (id : Int) (data : UpdateData) :
    Except JoblyError QueryCall :=
  match sqlForPartialUpdate data [] with
  | .error e => .error e
  | .ok r =>
    let idVarIdx := "$" ++ toString (r.values.length + 1)
    .ok { querySql := "UPDATE jobs SET " ++ r.setCols ++
            " WHERE id = " ++ idVarIdx ++
            " RETURNING id, title, salary, equity, company_handle AS \"companyHandle\"",
          params := r.values ++ [JsValue.num id] }

/-- Unfolding lemma for the success case: a non-empty mapping yields the
joined segments and the value list. -/
theorem sqlForPartialUpdate_ok (d : UpdateData) (m : JsToSql) (h : d ≠ []) :
    sqlForPartialUpdate d m =
      .ok { setCols := String.intercalate ", " (colSegments d m),
            values := d.map Prod.snd } := by
  unfold sqlForPartialUpdate
  simp [List.length_eq_zero, h]

theorem colSegments_length (d : UpdateData) (m : JsToSql) :
    (colSegments d m).length = d.length := by
  simp [colSegments]

theorem colSegments_getElem (d : UpdateData) (m : JsToSql) (i : Nat)
    (hi : i < (colSegments d m).length) :
    (colSegments d m).get ⟨i, hi⟩ =
      "\"" ++ resolveCol m ((d.map Prod.fst).get
          ⟨i, by simpa [colSegments_length d m] using hi⟩)
        ++ "\"=$" ++ toString (i + 1) := by
  simp [colSegments]

/-- Under distinct keys, the key at position `i` looks up to the value at
position `i`. -/
theorem lookup_getElem_of_nodup (l : List (String × JsValue))
    (hn : (l.map Prod.fst).Nodup) (i : Nat) (hi : i < l.length) :
    List.lookup l[i].1 l = some l[i].2 := by
  induction l generalizing i with
  | nil => simp at hi
  | cons hd tl ih =>
    rcases List.nodup_cons.mp (by simpa only [List.map_cons] using hn) with ⟨hhd, htl⟩
    cases i with
    | zero => simp [List.lookup]
    | succ j =>
      have hj : j < tl.length := by simpa using hi
      have hget : (hd :: tl)[j + 1] = tl[j] := by simp
      rw [hget]
      have hmem : tl[j].1 ∈ tl.map Prod.fst :=
        List.mem_map.mpr ⟨tl[j], List.mem_iff_getElem.mpr ⟨j, hj, rfl⟩, rfl⟩
      have hbeq : (tl[j].1 == hd.1) = false := by
        simp only [beq_eq_false_iff_ne, ne_eq]
        intro he
        exact hhd (he ▸ hmem)
      have hstep : List.lookup tl[j].1 (hd :: tl) = List.lookup tl[j].1 tl := by
        simp [List.lookup, hbeq]
      rw [hstep]
      exact ih htl j hj

/-- Overwriting the `password` entry's value: the `password` lookup now
yields the new value. -/
theorem lookup_map_overwrite (data : UpdateData) (w : JsValue) (v : JsValue)
    (hp : List.lookup "password" data = some v) :
    List.lookup "password" (data.map (overwritePassword w)) = some w := by
  induction data with
  | nil => simp [List.lookup] at hp
  | cons hd tl ih =>
    by_cases hhd : hd.1 = "password"
    · have h1 : overwritePassword w hd = (hd.1, w) := by
        simp [overwritePassword, hhd]
      rw [List.map_cons, h1]
      simp [List.lookup, hhd]
    · have h1 : overwritePassword w hd = hd := by
        simp [overwritePassword, hhd]
      have hbeq : ("password" == hd.1) = false := by
        simp only [beq_eq_false_iff_ne, ne_eq]
        intro he
        exact hhd he.symm
      simp only [List.lookup, hbeq] at hp
      rw [List.map_cons, h1]
      simp only [List.lookup, hbeq]
      exact ih hp

/-- Overwriting the `password` entry's value leaves every other key's lookup
unchanged. -/
theorem lookup_map_overwrite_other (data : UpdateData) (w : JsValue)
    (k : String) (hk : k ≠ "password") :
    List.lookup k (data.map (overwritePassword w)) = List.lookup k data := by
  induction data with
  | nil => simp
  | cons hd tl ih =>
    by_cases hhd : hd.1 = "password"
    · have h1 : overwritePassword w hd = (hd.1, w) := by
        simp [overwritePassword, hhd]
      have hbeq : (k == hd.1) = false := by
        simp only [beq_eq_false_iff_ne, ne_eq]
        intro he
        exact hk (he.trans hhd)
      rw [List.map_cons, h1]
      simp only [List.lookup, hbeq]
      exact ih
    · have h1 : overwritePassword w hd = hd := by
        simp [overwritePassword, hhd]
      rw [List.map_cons, h1]
      simp only [List.lookup]
      cases hkb : k == hd.1
      · exact ih
      · rfl

/-- Claim C1: for every non-empty update mapping and every translation table,
the builder returns a record whose `setCols` is exactly the comma-and-space
join of one segment per key and whose `values` has one entry per key; for
every 0-based index `i`, the `i`-th segment's positional placeholder numeral
is `i + 1` and the `i`-th value is the value the mapping associates with the
`i`-th key of the single iteration order used for both outputs. -/
theorem sqlForPartialUpdate_segment_value_alignment (d : UpdateData)
    (m : JsToSql) (hne : d ≠ []) (hnd : (d.map Prod.fst).Nodup) :
    sqlForPartialUpdate d m =
      .ok { setCols := String.intercalate ", " (colSegments d m),
            values := d.map Prod.snd } ∧
    (colSegments d m).length = d.length ∧
    (d.map Prod.snd).length = d.length ∧
    ∀ i, (hi : i < d.length) →
      (colSegments d m).get ⟨i, by rw [colSegments_length]; exact hi⟩ =
        "\"" ++ resolveCol m d[i].1 ++ "\"=$" ++ toString (i + 1) ∧
      (d.map Prod.snd).get ⟨i, by rw [List.length_map]; exact hi⟩ = d[i].2 ∧
      List.lookup d[i].1 d = some d[i].2 := by
  refine ⟨sqlForPartialUpdate_ok d m hne, colSegments_length d m, by simp, ?_⟩
  intro i hi
  refine ⟨?_, ?_, lookup_getElem_of_nodup d hnd i hi⟩
  · rw [colSegments_getElem]
    simp
  · simp

/-- Witness for C1 at the spec's own example input. -/
theorem sqlForPartialUpdate_segment_value_alignment_witness :
    sqlForPartialUpdate
        [("firstName", JsValue.str "Aliya"), ("age", JsValue.num 32)]
        [("firstName", "first_name")] =
      .ok { setCols := "\"first_name\"=$1, \"age\"=$2",
            values := [JsValue.str "Aliya", JsValue.num 32] } := by
  have h := sqlForPartialUpdate_segment_value_alignment
      [("firstName", JsValue.str "Aliya"), ("age", JsValue.num 32)]
      [("firstName", "first_name")] (by decide) (by decide)
  rw [h.1]
  rfl

/-- Claim C2: an update mapping with zero keys makes the builder fail with
the single bad-request No-data error, whatever the translation table, and no
output record is produced. -/
theorem sqlForPartialUpdate_empty_data (m : JsToSql) :
    sqlForPartialUpdate [] m = .error (.badRequest "No data") := rfl

/-- Claim C4: the builder conforms to the spec's four concrete examples
(the two test-suite cases, the doc-comment example, and the empty-input
error case). -/
theorem sqlForPartialUpdate_examples :
    sqlForPartialUpdate [("f1", JsValue.str "v1")] [("f1", "f1"), ("fF2", "f2")] =
      .ok { setCols := "\"f1\"=$1", values := [JsValue.str "v1"] } ∧
    sqlForPartialUpdate [("f1", JsValue.str "v1"), ("jsF2", JsValue.str "v2")]
        [("jsF2", "f2")] =
      .ok { setCols := "\"f1\"=$1, \"f2\"=$2",
            values := [JsValue.str "v1", JsValue.str "v2"] } ∧
    sqlForPartialUpdate
        [("firstName", JsValue.str "Aliya"), ("age", JsValue.num 32)]
        [("firstName", "first_name")] =
      .ok { setCols := "\"first_name\"=$1, \"age\"=$2",
            values := [JsValue.str "Aliya", JsValue.num 32] } ∧
    sqlForPartialUpdate [] [] = .error (.badRequest "No data") :=
  ⟨rfl, rfl, rfl, rfl⟩

/-- Claim C8: the builder is total — every input either produces the
empty-input error (exactly when the mapping is empty) or an output record. -/
theorem sqlForPartialUpdate_terminates (d : UpdateData) (m : JsToSql) :
    (d = [] ∧ sqlForPartialUpdate d m = .error (.badRequest "No data")) ∨
    (d ≠ [] ∧ ∃ r, sqlForPartialUpdate d m = .ok r) := by
  cases d with
  | nil => exact Or.inl ⟨rfl, rfl⟩
  | cons hd tl =>
    exact Or.inr ⟨by simp, ⟨_, sqlForPartialUpdate_ok (hd :: tl) m (by simp)⟩⟩

/-- The segment at a valid index, through the optional indexing operator. -/
theorem colSegments_getElem_opt (d : UpdateData) (m : JsToSql) (i : Nat)
    (hi : i < d.length) :
    (colSegments d m)[i]? =
      some ("\"" ++ resolveCol m d[i].1 ++ "\"=$" ++ toString (i + 1)) := by
  have hlen : i < (colSegments d m).length := by
    rw [colSegments_length]
    exact hi
  have hget := colSegments_getElem d m i hlen
  rw [List.getElem?_eq_getElem hlen,
    show (colSegments d m)[i] = (colSegments d m).get ⟨i, hlen⟩ from
      (List.get_eq_getElem (colSegments d m) ⟨i, hlen⟩).symm, hget]
  simp

/-- Counterexample to claim C3 as stated: the key `a` is present in the
translation table, translated to the empty string, yet the emitted quoted
column name is the key `a` itself, not the table's entry. -/
theorem sqlForPartialUpdate_falsy_entry_counterexample :
    List.lookup "a" [("a", "")] = some "" ∧
    sqlForPartialUpdate [("a", JsValue.str "v")] [("a", "")] =
      .ok { setCols := "\"a\"=$1", values := [JsValue.str "v"] } ∧
    ("\"a\"=$1" : String) ≠ "\"\"=$1" :=
  ⟨rfl, rfl, by decide⟩

/-- Claim C3 (amended): for every key of a non-empty update mapping, if the
key is present in the translation table with a non-empty translated name,
the quoted column name of its segment equals the table's entry; if the key
is absent — or its entry is the empty string, which the falsy-coalescing
lookup skips — the quoted column name is the key itself verbatim; in either
case the resolved name is wrapped in double quotes in the segment. -/
theorem sqlForPartialUpdate_column_resolution (d : UpdateData) (m : JsToSql)
    (i : Nat) (hi : i < d.length) :
    (∃ r, sqlForPartialUpdate d m = .ok r ∧
      r.setCols = String.intercalate ", " (colSegments d m)) ∧
    (colSegments d m)[i]? =
      some ("\"" ++ resolveCol m d[i].1 ++ "\"=$" ++ toString (i + 1)) ∧
    (∀ s, List.lookup d[i].1 m = some s → s ≠ "" → resolveCol m d[i].1 = s) ∧
    (List.lookup d[i].1 m = none → resolveCol m d[i].1 = d[i].1) ∧
    (List.lookup d[i].1 m = some "" → resolveCol m d[i].1 = d[i].1) := by
  have hne : d ≠ [] := by
    intro h
    rw [h] at hi
    simp at hi
  refine ⟨⟨_, sqlForPartialUpdate_ok d m hne, rfl⟩,
    colSegments_getElem_opt d m i hi, ?_, ?_, ?_⟩
  · intro s hs hsne
    unfold resolveCol
    rw [hs]
    simp [hsne]
  · intro hs
    unfold resolveCol
    rw [hs]
  · intro hs
    unfold resolveCol
    rw [hs]
    simp

/-- Witness for the amended C3 at a concrete translated key. -/
theorem sqlForPartialUpdate_column_resolution_witness :
    (∃ r, sqlForPartialUpdate [("firstName", JsValue.str "A")]
        [("firstName", "first_name")] = .ok r ∧
      r.setCols = String.intercalate ", "
        (colSegments [("firstName", JsValue.str "A")]
          [("firstName", "first_name")])) ∧
    (colSegments [("firstName", JsValue.str "A")]
        [("firstName", "first_name")])[0]? =
      some ("\"" ++ resolveCol [("firstName", "first_name")] "firstName" ++
        "\"=$" ++ toString (0 + 1)) ∧
    (∀ s, List.lookup "firstName" [("firstName", "first_name")] = some s →
      s ≠ "" → resolveCol [("firstName", "first_name")] "firstName" = s) ∧
    (List.lookup "firstName" [("firstName", "first_name")] = none →
      resolveCol [("firstName", "first_name")] "firstName" = "firstName") ∧
    (List.lookup "firstName" [("firstName", "first_name")] = some "" →
      resolveCol [("firstName", "first_name")] "firstName" = "firstName") :=
  sqlForPartialUpdate_column_resolution [("firstName", JsValue.str "A")]
    [("firstName", "first_name")] 0 (by decide)

/-- Claim C5: the clause string depends only on the keys — two non-empty
mappings with the same keys in the same order, against the same translation
table, yield identical `setCols`; no mapping value flows into the fragment,
only its positional placeholder does. -/
theorem setCols_independent_of_values (d₁ d₂ : UpdateData) (m : JsToSql)
    (hk : d₁.map Prod.fst = d₂.map Prod.fst) (hne : d₁ ≠ []) :
    ∃ r₁ r₂, sqlForPartialUpdate d₁ m = .ok r₁ ∧
      sqlForPartialUpdate d₂ m = .ok r₂ ∧ r₁.setCols = r₂.setCols := by
  have hne₂ : d₂ ≠ [] := by
    intro h
    apply hne
    have hlen := congrArg List.length hk
    simp [h] at hlen
    exact hlen
  exact ⟨_, _, sqlForPartialUpdate_ok d₁ m hne, sqlForPartialUpdate_ok d₂ m hne₂,
    by simp [colSegments, hk]⟩

/-- Witness for C5: same single key, a string value against a number value. -/
theorem setCols_independent_of_values_witness :
    ∃ r₁ r₂, sqlForPartialUpdate [("a", JsValue.str "x")] [] = .ok r₁ ∧
      sqlForPartialUpdate [("a", JsValue.num 5)] [] = .ok r₂ ∧
      r₁.setCols = r₂.setCols :=
  setCols_independent_of_values [("a", JsValue.str "x")] [("a", JsValue.num 5)]
    [] (by rfl) (by decide)

/-- Claim C6: the builder is a pure, deterministic function — two calls on
the same inputs produce structurally identical results. -/
theorem sqlForPartialUpdate_deterministic (d : UpdateData) (m : JsToSql)
    (r₁ r₂ : Except JoblyError SqlUpdateResult)
    (h₁ : sqlForPartialUpdate d m = r₁) (h₂ : sqlForPartialUpdate d m = r₂) :
    r₁ = r₂ := by
  rw [← h₁, ← h₂]

/-- Witness for C6 at the test suite's one-item input. -/
theorem sqlForPartialUpdate_deterministic_witness :
    (Except.ok { setCols := "\"f1\"=$1", values := [JsValue.str "v1"] } :
        Except JoblyError SqlUpdateResult) =
      .ok { setCols := "\"f1\"=$1", values := [JsValue.str "v1"] } :=
  sqlForPartialUpdate_deterministic [("f1", JsValue.str "v1")] [] _ _ rfl rfl

/-- Claim C7: in both `User.update` and `Job.update`, the record-identifying
placeholder appended after the builder's fragment has numeral exactly
`values.length + 1`, and the identifying value (username or id) is appended
at the end of the bound value list, so each placeholder of the final
statement refers to its intended bound value. -/
theorem update_callers_placeholder_alignment
    (hash : JsValue → JsValue) (username : String) (id : Int)
    (dataU dataJ : UpdateData) (qU qJ : QueryCall)
    (hU : userUpdateQuery hash username dataU = .ok qU)
    (hJ : jobUpdateQuery id dataJ = .ok qJ) :
    (∃ r, sqlForPartialUpdate (hashPasswordInData hash dataU) userJsToSql =
        .ok r ∧
      qU.querySql = "UPDATE users SET " ++ r.setCols ++
        " WHERE username = " ++ ("$" ++ toString (r.values.length + 1)) ++
        " RETURNING username, first_name AS \"firstName\", last_name AS \"lastName\", email, is_admin AS \"isAdmin\"" ∧
      qU.params = r.values ++ [JsValue.str username] ∧
      qU.params.length = r.values.length + 1 ∧
      qU.params.getLast? = some (JsValue.str username)) ∧
    (∃ r, sqlForPartialUpdate dataJ [] = .ok r ∧
      qJ.querySql = "UPDATE jobs SET " ++ r.setCols ++
        " WHERE id = " ++ ("$" ++ toString (r.values.length + 1)) ++
        " RETURNING id, title, salary, equity, company_handle AS \"companyHandle\"" ∧
      qJ.params = r.values ++ [JsValue.num id] ∧
      qJ.params.length = r.values.length + 1 ∧
      qJ.params.getLast? = some (JsValue.num id)) := by
  constructor
  · cases hres : sqlForPartialUpdate (hashPasswordInData hash dataU) userJsToSql with
    | error e =>
      unfold userUpdateQuery at hU
      rw [hres] at hU
      simp at hU
    | ok r =>
      unfold userUpdateQuery at hU
      rw [hres] at hU
      simp only [Except.ok.injEq] at hU
      subst hU
      exact ⟨r, rfl, rfl, rfl, by simp, List.getLast?_concat _⟩
  · cases hres : sqlForPartialUpdate dataJ [] with
    | error e =>
      unfold jobUpdateQuery at hJ
      rw [hres] at hJ
      simp at hJ
    | ok r =>
      unfold jobUpdateQuery at hJ
      rw [hres] at hJ
      simp only [Except.ok.injEq] at hJ
      subst hJ
      exact ⟨r, rfl, rfl, rfl, by simp, List.getLast?_concat _⟩

/-- Witness for C7 at single-field updates of a user and of a job. -/
theorem update_callers_placeholder_alignment_witness :
    (∃ r, sqlForPartialUpdate
        (hashPasswordInData (fun _ => JsValue.str "hashed")
          [("firstName", JsValue.str "A")]) userJsToSql = .ok r ∧
      (QueryCall.mk
          "UPDATE users SET \"first_name\"=$1 WHERE username = $2 RETURNING username, first_name AS \"firstName\", last_name AS \"lastName\", email, is_admin AS \"isAdmin\""
          [JsValue.str "A", JsValue.str "u1"]).querySql =
        "UPDATE users SET " ++ r.setCols ++
        " WHERE username = " ++ ("$" ++ toString (r.values.length + 1)) ++
        " RETURNING username, first_name AS \"firstName\", last_name AS \"lastName\", email, is_admin AS \"isAdmin\"" ∧
      (QueryCall.mk
          "UPDATE users SET \"first_name\"=$1 WHERE username = $2 RETURNING username, first_name AS \"firstName\", last_name AS \"lastName\", email, is_admin AS \"isAdmin\""
          [JsValue.str "A", JsValue.str "u1"]).params =
        r.values ++ [JsValue.str "u1"] ∧
      (QueryCall.mk
          "UPDATE users SET \"first_name\"=$1 WHERE username = $2 RETURNING username, first_name AS \"firstName\", last_name AS \"lastName\", email, is_admin AS \"isAdmin\""
          [JsValue.str "A", JsValue.str "u1"]).params.length =
        r.values.length + 1 ∧
      (QueryCall.mk
          "UPDATE users SET \"first_name\"=$1 WHERE username = $2 RETURNING username, first_name AS \"firstName\", last_name AS \"lastName\", email, is_admin AS \"isAdmin\""
          [JsValue.str "A", JsValue.str "u1"]).params.getLast? =
        some (JsValue.str "u1")) ∧
    (∃ r, sqlForPartialUpdate [("title", JsValue.str "t")] [] = .ok r ∧
      (QueryCall.mk
          "UPDATE jobs SET \"title\"=$1 WHERE id = $2 RETURNING id, title, salary, equity, company_handle AS \"companyHandle\""
          [JsValue.str "t", JsValue.num 7]).querySql =
        "UPDATE jobs SET " ++ r.setCols ++
        " WHERE id = " ++ ("$" ++ toString (r.values.length + 1)) ++
        " RETURNING id, title, salary, equity, company_handle AS \"companyHandle\"" ∧
      (QueryCall.mk
          "UPDATE jobs SET \"title\"=$1 WHERE id = $2 RETURNING id, title, salary, equity, company_handle AS \"companyHandle\""
          [JsValue.str "t", JsValue.num 7]).params =
        r.values ++ [JsValue.num 7] ∧
      (QueryCall.mk
          "UPDATE jobs SET \"title\"=$1 WHERE id = $2 RETURNING id, title, salary, equity, company_handle AS \"companyHandle\""
          [JsValue.str "t", JsValue.num 7]).params.length =
        r.values.length + 1 ∧
      (QueryCall.mk
          "UPDATE jobs SET \"title\"=$1 WHERE id = $2 RETURNING id, title, salary, equity, company_handle AS \"companyHandle\""
          [JsValue.str "t", JsValue.num 7]).params.getLast? =
        some (JsValue.num 7)) :=
  update_callers_placeholder_alignment (fun _ => JsValue.str "hashed") "u1" 7
    [("firstName", JsValue.str "A")] [("title", JsValue.str "t")] _ _ rfl rfl

/-- Claim C9 (implicit): the builder performs no escaping of column names —
when a key's resolved column name itself contains a double-quote character,
that character is inserted verbatim between the two wrapping double quotes,
so the segment carries more than the two wrapping quote characters and the
quoting does not guarantee a well-formed quoted identifier. -/
theorem sqlForPartialUpdate_no_escaping (d : UpdateData) (m : JsToSql)
    (i : Nat) (hi : i < d.length)
    (hq : '"' ∈ (resolveCol m d[i].1).toList) :
    (∃ r, sqlForPartialUpdate d m = .ok r ∧
      r.setCols = String.intercalate ", " (colSegments d m)) ∧
    (colSegments d m)[i]? =
      some ("\"" ++ resolveCol m d[i].1 ++ "\"=$" ++ toString (i + 1)) ∧
    2 < ("\"" ++ resolveCol m d[i].1 ++ "\"=$" ++
      toString (i + 1)).toList.count '"' := by
  have hne : d ≠ [] := by
    intro h
    rw [h] at hi
    simp at hi
  refine ⟨⟨_, sqlForPartialUpdate_ok d m hne, rfl⟩,
    colSegments_getElem_opt d m i hi, ?_⟩
  have hdata : ("\"" ++ resolveCol m d[i].1 ++ "\"=$" ++
      toString (i + 1)).toList =
      "\"".toList ++ (resolveCol m d[i].1).toList ++ "\"=$".toList ++
        (toString (i + 1)).toList := by
    simp [String.toList, String.data_append]
  rw [hdata, List.count_append, List.count_append, List.count_append]
  have hpos : 0 < (resolveCol m d[i].1).toList.count '"' :=
    List.count_pos_iff.mpr hq
  have h1 : ("\"".toList.count '"') = 1 := by decide
  have h2 : ("\"=$".toList.count '"') = 1 := by decide
  omega

/-- Witness for C9 at a key containing a double quote. -/
theorem sqlForPartialUpdate_no_escaping_witness :
    (∃ r, sqlForPartialUpdate [("a\"b", JsValue.str "v")] [] = .ok r ∧
      r.setCols = String.intercalate ", "
        (colSegments [("a\"b", JsValue.str "v")] [])) ∧
    (colSegments [("a\"b", JsValue.str "v")] [])[0]? =
      some ("\"" ++ resolveCol [] "a\"b" ++ "\"=$" ++ toString (0 + 1)) ∧
    2 < ("\"" ++ resolveCol [] "a\"b" ++ "\"=$" ++
      toString (0 + 1)).toList.count '"' :=
  sqlForPartialUpdate_no_escaping [("a\"b", JsValue.str "v")] [] 0
    (by decide) (by decide)

/-- Claim C10 (implicit): before `User.update` invokes the builder, a truthy
`password` entry of the caller-supplied mapping is overwritten by its hash —
afterwards the mapping's `password` no longer holds the plaintext value —
while every other key's binding is left unchanged; the builder then receives
exactly this mutated mapping. -/
theorem userUpdate_mutates_password (hash : JsValue → JsValue)
    (data : UpdateData) (v : JsValue)
    (hp : List.lookup "password" data = some v) (ht : v.truthy = true) :
    hashPasswordInData hash data = data.map (overwritePassword (hash v)) ∧
    List.lookup "password" (hashPasswordInData hash data) = some (hash v) ∧
    (∀ k, k ≠ "password" →
      List.lookup k (hashPasswordInData hash data) = List.lookup k data) ∧
    userUpdateQuery hash "u" data =
      (match sqlForPartialUpdate (hashPasswordInData hash data) userJsToSql with
       | .error e => .error e
       | .ok r =>
         .ok { querySql := "UPDATE users SET " ++ r.setCols ++
                 " WHERE username = " ++ ("$" ++ toString (r.values.length + 1)) ++
                 " RETURNING username, first_name AS \"firstName\", last_name AS \"lastName\", email, is_admin AS \"isAdmin\"",
               params := r.values ++ [JsValue.str "u"] }) := by
  have hunf : hashPasswordInData hash data =
      data.map (overwritePassword (hash v)) := by
    unfold hashPasswordInData
    rw [hp]
    simp [ht]
  refine ⟨hunf, ?_, ?_, rfl⟩
  · rw [hunf]
    exact lookup_map_overwrite data (hash v) v hp
  · intro k hk
    rw [hunf]
    exact lookup_map_overwrite_other data (hash v) k hk

/-- Witness for C10 at a mapping holding a plaintext password and one other
field. -/
theorem userUpdate_mutates_password_witness :
    hashPasswordInData (fun _ => JsValue.str "hashed")
        [("password", JsValue.str "secret"), ("firstName", JsValue.str "A")] =
      List.map (overwritePassword (JsValue.str "hashed"))
        [("password", JsValue.str "secret"), ("firstName", JsValue.str "A")] ∧
    List.lookup "password"
        (hashPasswordInData (fun _ => JsValue.str "hashed")
          [("password", JsValue.str "secret"), ("firstName", JsValue.str "A")]) =
      some (JsValue.str "hashed") ∧
    (∀ k, k ≠ "password" →
      List.lookup k
          (hashPasswordInData (fun _ => JsValue.str "hashed")
            [("password", JsValue.str "secret"),
              ("firstName", JsValue.str "A")]) =
        List.lookup k
          [("password", JsValue.str "secret"), ("firstName", JsValue.str "A")]) ∧
    userUpdateQuery (fun _ => JsValue.str "hashed") "u"
        [("password", JsValue.str "secret"), ("firstName", JsValue.str "A")] =
      (match sqlForPartialUpdate
          (hashPasswordInData (fun _ => JsValue.str "hashed")
            [("password", JsValue.str "secret"), ("firstName", JsValue.str "A")])
          userJsToSql with
       | .error e => .error e
       | .ok r =>
         .ok { querySql := "UPDATE users SET " ++ r.setCols ++
                 " WHERE username = " ++ ("$" ++ toString (r.values.length + 1)) ++
                 " RETURNING username, first_name AS \"firstName\", last_name AS \"lastName\", email, is_admin AS \"isAdmin\"",
               params := r.values ++ [JsValue.str "u"] }) :=
  userUpdate_mutates_password (fun _ => JsValue.str "hashed")
    [("password", JsValue.str "secret"), ("firstName", JsValue.str "A")]
    (JsValue.str "secret") (by rfl) (by decide)
